import Mathlib

/-!
# sensors_display.h — data model of the sensor display firmware

A shallow embedding of `SOFT/Arduino/src/sensors_display/sensors_display.h`:
the preprocessor constants, the four `enum class … : u8` declarations and the
`EepromData` record.  Enum declarations are kept as the list of enumerators
written in the header (name and optional initialiser); the numeric values are
computed from that list by the C++ numbering rule.
-/

namespace SensorsDisplay

/-! ## Preprocessor constants -/

/-- Header line `#define DEBOUNCE_TIME_MS 30L`: the debounce window in milliseconds. -/
def DEBOUNCE_TIME_MS : Nat := 30

/-- Header line `#define STATS_DISPLAY_DEFAULT_TIME_MS 3000`. -/
def STATS_DISPLAY_DEFAULT_TIME_MS : Nat := 3000

/-- Header line `#define CONFIG_DISPLAY_TIME_MS 3000`. -/
def CONFIG_DISPLAY_TIME_MS : Nat := 3000

/-- Header line `#define CURRENT_EEPROM_DATA_VERSION 1`. -/
def CURRENT_EEPROM_DATA_VERSION : Nat := 1

/-! ## Enum declarations -/

/-- One enumerator of an enum declaration: its identifier and the explicit
initialiser, when the header writes one (`system = 0`). -/
structure Enumerator where
  name : String
  init : Option Nat
deriving DecidableEq, Repr

/-- C++ numbering rule for enumerators: an enumerator with an initialiser takes
that value, one without takes the value of the previous enumerator plus one.
`next` is the value an enumerator without initialiser receives. -/
def enumValuesFrom : Nat → List Enumerator → List (String × Nat)
  | _, [] => []
  | next, e :: es =>
    let v := e.init.getD next
    (e.name, v) :: enumValuesFrom (v + 1) es

/-- Enumerators of a declaration with their numeric values; a first enumerator
without initialiser has value zero. -/
def enumValues (decl : List Enumerator) : List (String × Nat) :=
  enumValuesFrom 0 decl

/-- Numeric value of the enumerator called `n`, if the list has one. -/
def valueOf (vals : List (String × Nat)) (n : String) : Option Nat :=
  (vals.find? (fun p => p.1 == n)).map Prod.snd

/-- Identifier of the enumerator whose numeric value is `v`, if there is one. -/
def nameOf (vals : List (String × Nat)) (v : Nat) : Option String :=
  (vals.find? (fun p => p.2 == v)).map Prod.fst

/-- Name of the sentinel enumerator used by the cyclable enums. -/
def sentinelName : String := "endEnum"

/-- Enumerators other than the sentinel: the selectable members. -/
def validMembers (vals : List (String × Nat)) : List (String × Nat) :=
  vals.filter (fun p => p.1 != sentinelName)

/-- Declaration `enum class SensorItem : u8 { system = 0, cpu, gpu, allTemp, allFan, endEnum };` -/
def SensorItem.decl : List Enumerator :=
  [⟨"system", some 0⟩, ⟨"cpu", none⟩, ⟨"gpu", none⟩, ⟨"allTemp", none⟩,
   ⟨"allFan", none⟩, ⟨"endEnum", none⟩]

/-- Declaration `enum class ConfigItem : u8 { system = 0, cpu, gpu, allTemp, allFan, cycle,
buttonLedOff, buttonLedHigh, buttonLedLow, endEnum };` -/
def ConfigItem.decl : List Enumerator :=
  [⟨"system", some 0⟩, ⟨"cpu", none⟩, ⟨"gpu", none⟩, ⟨"allTemp", none⟩,
   ⟨"allFan", none⟩, ⟨"cycle", none⟩, ⟨"buttonLedOff", none⟩,
   ⟨"buttonLedHigh", none⟩, ⟨"buttonLedLow", none⟩, ⟨"endEnum", none⟩]

/-- Declaration `enum class DisplayMode : u8 { sensor = 0, sensorCycle, config };` -/
def DisplayMode.decl : List Enumerator :=
  [⟨"sensor", some 0⟩, ⟨"sensorCycle", none⟩, ⟨"config", none⟩]

/-- Declaration `enum class LedState : u8 { Off = 0, Low, High };` -/
def LedState.decl : List Enumerator :=
  [⟨"Off", some 0⟩, ⟨"Low", none⟩, ⟨"High", none⟩]

/-- Enumerators of `SensorItem` with their numeric values. -/
def SensorItem.values : List (String × Nat) := enumValues SensorItem.decl

/-- Enumerators of `ConfigItem` with their numeric values. -/
def ConfigItem.values : List (String × Nat) := enumValues ConfigItem.decl

/-- Enumerators of `DisplayMode` with their numeric values. -/
def DisplayMode.values : List (String × Nat) := enumValues DisplayMode.decl

/-- Enumerators of `LedState` with their numeric values. -/
def LedState.values : List (String × Nat) := enumValues LedState.decl

/-- Numeric value of the sentinel `endEnum` of an enum (zero when the enum
declares none). -/
def sentinelOf (vals : List (String × Nat)) : Nat :=
  (valueOf vals sentinelName).getD 0

/-- A number is a valid selection of an enum when it is the value of one of its
enumerators other than the sentinel. -/
def isValidIn (vals : List (String × Nat)) (v : Nat) : Prop :=
  v ∈ (validMembers vals).map Prod.snd

instance (vals : List (String × Nat)) (v : Nat) : Decidable (isValidIn vals v) := by
  unfold isValidIn; infer_instance

/-- Numeric value of `SensorItem::endEnum`. -/
def SensorItem.endEnum : Nat := sentinelOf SensorItem.values

/-- Numeric value of `ConfigItem::endEnum`. -/
def ConfigItem.endEnum : Nat := sentinelOf ConfigItem.values

/-! ## The persisted record -/

/-- Integer types used by the record. -/
inductive CType where
  | u8
  | u16
deriving DecidableEq, Repr

/-- Modelled from the spec: the typedefs `u8` and `u16` come from the Arduino
core, which is not part of this header; the specification's record layout gives
them as unsigned integers of one and two bytes. -/
def CType.width : CType → Nat
  | .u8 => 1
  | .u16 => 2

/-- Members of `struct EepromData` in declaration order, with the identifiers
written in the header. -/
def EepromData.fields : List (String × CType) :=
  [("Version", .u8), ("Size", .u8), ("SelectedDisplayMode", .u8),
   ("SelectedSensorItem", .u8), ("LedState", .u8), ("StatsDisplayTimeMs", .u16),
   ("Pariry", .u8)]

/-- Identifier of the integrity member of `EepromData`, the one the header's
comment calls "the parity field", spelled as the header spells it. -/
def EepromData.parityName : String := "Pariry"

/-- Sum of the widths of the members of `EepromData`, in bytes. -/
def EepromData.recordSize : Nat :=
  (EepromData.fields.map (fun f => f.2.width)).sum

/-- Width in bytes of the member called `n`, if the record has one. -/
def EepromData.widthOf (n : String) : Option Nat :=
  (EepromData.fields.find? (fun f => f.1 == n)).map (fun f => f.2.width)

/-- Record `struct EepromData`: every member holds an unsigned machine integer, kept as
a natural number (see `EepromData.wellFormed` for the ranges). -/
structure EepromData where
  Version : Nat
  Size : Nat
  SelectedDisplayMode : Nat
  SelectedSensorItem : Nat
  LedState : Nat
  StatsDisplayTimeMs : Nat
  Pariry : Nat
deriving DecidableEq, Repr

/-- Every member is within the range of its machine type. -/
def EepromData.wellFormed (x : EepromData) : Prop :=
  x.Version < 2 ^ 8 ∧ x.Size < 2 ^ 8 ∧ x.SelectedDisplayMode < 2 ^ 8 ∧
  x.SelectedSensorItem < 2 ^ 8 ∧ x.LedState < 2 ^ 8 ∧
  x.StatsDisplayTimeMs < 2 ^ 16 ∧ x.Pariry < 2 ^ 8

instance (x : EepromData) : Decidable x.wellFormed := by
  unfold EepromData.wellFormed; infer_instance

/-! ## Selection stepping (specified behaviour) -/

/-- Modelled from the spec: the header declares no function; the step that moves
a selection to the next value is described as "advance to the next value,
wrapping before `endEnum` back to 0", that is `(v + 1)` modulo the numeric value
of the sentinel. -/
def advance (endEnum v : Nat) : Nat := (v + 1) % endEnum

/-- The first `endEnum` selections met when stepping from `v`:
`v, advance v, advance (advance v), …`. -/
def orbit (endEnum v : Nat) : List Nat :=
  (List.range endEnum).map (fun k => (advance endEnum)^[k] v)

/-! ## Persistence (specified behaviour) -/

/-- Modelled from the spec: the header fixes the record but not its byte image;
the specification's layout lists the members in declaration order, and the
two-byte member is stored low byte first as on the AVR target.  Each byte is
truncated to eight bits. -/
def EepromData.toBytes (x : EepromData) : List Nat :=
  [x.Version % 256, x.Size % 256, x.SelectedDisplayMode % 256,
   x.SelectedSensorItem % 256, x.LedState % 256,
   x.StatsDisplayTimeMs % 256, x.StatsDisplayTimeMs / 256 % 256, x.Pariry % 256]

/-- Modelled from the spec: inverse reading of the byte image; fails when fewer
or more bytes than one record are given. -/
def EepromData.ofBytes : List Nat → Option EepromData
  | [v, s, m, i, l, lo, hi, p] => some ⟨v, s, m, i, l, lo + 256 * hi, p⟩
  | _ => none

/-- Modelled from the spec: "`Parity` is recomputed over all preceding bytes";
the bytes of the image that come before the last member. -/
def precedingBytes (bytes : List Nat) : List Nat :=
  bytes.take (EepromData.recordSize - CType.u8.width)

/-- Modelled from the spec: what `save` stores for a record: `Version` set to
`CURRENT_EEPROM_DATA_VERSION`, `Size` set to the current record size and the
last member set to the integrity value of all preceding bytes.  The integrity
function itself is not fixed by the specification and is a parameter. -/
def stamp (parity : List Nat → Nat) (x : EepromData) : EepromData :=
  let y := { x with Version := CURRENT_EEPROM_DATA_VERSION, Size := EepromData.recordSize }
  { y with Pariry := parity (precedingBytes y.toBytes) % 256 }

/-- Modelled from the spec: `save(record)` writes the complete stamped record;
the result is the content of the storage. -/
def save (parity : List Nat → Nat) (x : EepromData) : List Nat :=
  (stamp parity x).toBytes

/-- Modelled from the spec: the record `load` returns on failure:
`DisplayMode::sensor`, `SensorItem::system`, `LedState::Off` and
`STATS_DISPLAY_DEFAULT_TIME_MS`.  The specification does not state the other
three members of the default; they are zero here and are set by the next save. -/
def defaultRecord : EepromData :=
  { Version := 0, Size := 0,
    SelectedDisplayMode := (valueOf DisplayMode.values "sensor").getD 0,
    SelectedSensorItem := (valueOf SensorItem.values "system").getD 0,
    LedState := (valueOf LedState.values "Off").getD 0,
    StatsDisplayTimeMs := STATS_DISPLAY_DEFAULT_TIME_MS,
    Pariry := 0 }

/-- Modelled from the spec: the checks `load` makes on a record read from
storage whose byte image is `bytes`: version, size, integrity value and the
range of every enum-valued member. -/
def accepts (parity : List Nat → Nat) (bytes : List Nat) (r : EepromData) : Bool :=
  decide (r.Version = CURRENT_EEPROM_DATA_VERSION) &&
  decide (r.Size = EepromData.recordSize) &&
  decide (parity (precedingBytes bytes) % 256 = r.Pariry) &&
  decide (isValidIn DisplayMode.values r.SelectedDisplayMode) &&
  decide (isValidIn SensorItem.values r.SelectedSensorItem) &&
  decide (isValidIn LedState.values r.LedState)

/-- Modelled from the spec: `load()` reads the fixed-size record at the start of
the storage and returns it when every check passes, the default record
otherwise. -/
def load (parity : List Nat → Nat) (storage : List Nat) : EepromData :=
  let bytes := storage.take EepromData.recordSize
  match EepromData.ofBytes bytes with
  | none => defaultRecord
  | some r => if accepts parity bytes r then r else defaultRecord

/-- One admissible integrity function: the exclusive or of the bytes. -/
def xorParity (bytes : List Nat) : Nat :=
  bytes.foldl Nat.xor 0

/-- Distance of the enumerator called `n` from the enumerator called `base`. -/
def offsetFrom (vals : List (String × Nat)) (base n : String) : Option Nat :=
  match valueOf vals n, valueOf vals base with
  | some c, some b => some (c - b)
  | _, _ => none

/-! ## Auxiliary facts -/

theorem sensorItem_values_eq :
    SensorItem.values =
      [("system", 0), ("cpu", 1), ("gpu", 2), ("allTemp", 3), ("allFan", 4), ("endEnum", 5)] := by
  decide

theorem configItem_values_eq :
    ConfigItem.values =
      [("system", 0), ("cpu", 1), ("gpu", 2), ("allTemp", 3), ("allFan", 4), ("cycle", 5),
       ("buttonLedOff", 6), ("buttonLedHigh", 7), ("buttonLedLow", 8), ("endEnum", 9)] := by
  decide

theorem sensorItem_valid_iff (v : Nat) :
    isValidIn SensorItem.values v ↔ v < 5 := by
  have h : (validMembers SensorItem.values).map Prod.snd = [0, 1, 2, 3, 4] := by decide
  unfold isValidIn
  rw [h]
  simp only [List.mem_cons, List.mem_singleton, List.not_mem_nil, or_false]
  omega

theorem configItem_valid_iff (v : Nat) :
    isValidIn ConfigItem.values v ↔ v < 9 := by
  have h : (validMembers ConfigItem.values).map Prod.snd = [0, 1, 2, 3, 4, 5, 6, 7, 8] := by
    decide
  unfold isValidIn
  rw [h]
  simp only [List.mem_cons, List.mem_singleton, List.not_mem_nil, or_false]
  omega

theorem displayMode_valid_iff (v : Nat) :
    isValidIn DisplayMode.values v ↔ v < 3 := by
  have h : (validMembers DisplayMode.values).map Prod.snd = [0, 1, 2] := by decide
  unfold isValidIn
  rw [h]
  simp only [List.mem_cons, List.mem_singleton, List.not_mem_nil, or_false]
  omega

theorem ledState_valid_iff (v : Nat) :
    isValidIn LedState.values v ↔ v < 3 := by
  have h : (validMembers LedState.values).map Prod.snd = [0, 1, 2] := by decide
  unfold isValidIn
  rw [h]
  simp only [List.mem_cons, List.mem_singleton, List.not_mem_nil, or_false]
  omega

theorem eepromData_recordSize_eq : EepromData.recordSize = 8 := by decide

theorem sensorItem_valid_iff_lt_endEnum (v : Nat) :
    isValidIn SensorItem.values v ↔ v < SensorItem.endEnum := by
  have h : SensorItem.endEnum = 5 := by decide
  rw [h]
  exact sensorItem_valid_iff v

/-! ## Enum claims -/

/-- C5: `SensorItem` has exactly five valid values, numbered consecutively from
zero in the order system, cpu, gpu, allTemp, allFan; the sentinel `endEnum`
comes right after the last valid member, its numeric value is the number of
valid values (five), and a number is a valid `SensorItem` selection exactly
when it is below `endEnum`. -/
theorem sensorItem_numbering :
    validMembers SensorItem.values =
        [("system", 0), ("cpu", 1), ("gpu", 2), ("allTemp", 3), ("allFan", 4)] ∧
    SensorItem.values = validMembers SensorItem.values ++ [(sentinelName, SensorItem.endEnum)] ∧
    SensorItem.endEnum = (validMembers SensorItem.values).length ∧
    SensorItem.endEnum = 5 ∧
    ∀ v : Nat, isValidIn SensorItem.values v ↔ v < SensorItem.endEnum := by
  exact ⟨by decide, by decide, by decide, by decide, sensorItem_valid_iff_lt_endEnum⟩

/-- C6: the valid values of `ConfigItem` are the five sensor selections, then
cycle, then buttonLedOff, buttonLedHigh, buttonLedLow, numbered consecutively
from zero in that order (0..8); the sentinel `endEnum` comes right after the
last valid member and its numeric value is the number of valid values (nine). -/
theorem configItem_numbering :
    validMembers ConfigItem.values =
        [("system", 0), ("cpu", 1), ("gpu", 2), ("allTemp", 3), ("allFan", 4), ("cycle", 5),
         ("buttonLedOff", 6), ("buttonLedHigh", 7), ("buttonLedLow", 8)] ∧
    (validMembers ConfigItem.values).take 5 = validMembers SensorItem.values ∧
    ConfigItem.values = validMembers ConfigItem.values ++ [(sentinelName, ConfigItem.endEnum)] ∧
    ConfigItem.endEnum = (validMembers ConfigItem.values).length ∧
    ConfigItem.endEnum = 9 := by
  refine ⟨by decide, by decide, by decide, by decide, by decide⟩

/-- C7: `DisplayMode` is a closed set of exactly three values without sentinel:
sensor = 0, sensorCycle = 1, config = 2; every value of the enum is one of the
three and the three are pairwise distinct. -/
theorem displayMode_closed_set :
    DisplayMode.values = [("sensor", 0), ("sensorCycle", 1), ("config", 2)] ∧
    valueOf DisplayMode.values sentinelName = none ∧
    validMembers DisplayMode.values = DisplayMode.values ∧
    DisplayMode.values.length = 3 ∧
    (DisplayMode.values.map Prod.snd).Nodup ∧
    (DisplayMode.values.map Prod.fst).Nodup ∧
    ∀ v : Nat, isValidIn DisplayMode.values v ↔
      (some v = valueOf DisplayMode.values "sensor" ∨
       some v = valueOf DisplayMode.values "sensorCycle" ∨
       some v = valueOf DisplayMode.values "config") := by
  refine ⟨by decide, by decide, by decide, by decide, by decide, by decide, ?_⟩
  intro v
  have h0 : valueOf DisplayMode.values "sensor" = some 0 := by decide
  have h1 : valueOf DisplayMode.values "sensorCycle" = some 1 := by decide
  have h2 : valueOf DisplayMode.values "config" = some 2 := by decide
  rw [h0, h1, h2, displayMode_valid_iff]
  simp only [Option.some.injEq]
  omega

/-- C9: the sensor entries of `ConfigItem` coincide numerically with
`SensorItem`: every valid `SensorItem` member has the same value under the same
name in `ConfigItem`; a `ConfigItem` enumerator bears the name of a valid
`SensorItem` member exactly when its value is below `SensorItem::endEnum`;
`ConfigItem::cycle` equals `SensorItem::endEnum`; and reading a sensor config
value as a `SensorItem` keeps the name and is a valid selection. -/
theorem configItem_sensor_entries :
    (∀ p ∈ validMembers SensorItem.values, valueOf ConfigItem.values p.1 = some p.2) ∧
    (∀ p ∈ ConfigItem.values,
      p.1 ∈ (validMembers SensorItem.values).map Prod.fst ↔ p.2 < SensorItem.endEnum) ∧
    valueOf ConfigItem.values "cycle" = some SensorItem.endEnum ∧
    (∀ p ∈ ConfigItem.values, p.2 < SensorItem.endEnum →
      nameOf SensorItem.values p.2 = some p.1 ∧ isValidIn SensorItem.values p.2) := by
  refine ⟨by decide, by decide, by decide, by decide⟩

/-- C10: `LedState` has exactly the three values Off = 0, Low = 1, High = 2,
while the LED entries of `ConfigItem` are buttonLedOff = 6, buttonLedHigh = 7,
buttonLedLow = 8; so the offset from buttonLedOff agrees with the `LedState` of
the same name only for Off: buttonLedHigh has offset 1, the value of Low, and
buttonLedLow has offset 2, the value of High. -/
theorem ledState_config_offsets :
    LedState.values = [("Off", 0), ("Low", 1), ("High", 2)] ∧
    valueOf ConfigItem.values "buttonLedOff" = some 6 ∧
    valueOf ConfigItem.values "buttonLedHigh" = some 7 ∧
    valueOf ConfigItem.values "buttonLedLow" = some 8 ∧
    offsetFrom ConfigItem.values "buttonLedOff" "buttonLedOff" = valueOf LedState.values "Off" ∧
    offsetFrom ConfigItem.values "buttonLedOff" "buttonLedHigh" = valueOf LedState.values "Low" ∧
    offsetFrom ConfigItem.values "buttonLedOff" "buttonLedLow" = valueOf LedState.values "High" ∧
    offsetFrom ConfigItem.values "buttonLedOff" "buttonLedHigh" = some 1 ∧
    offsetFrom ConfigItem.values "buttonLedOff" "buttonLedLow" = some 2 ∧
    offsetFrom ConfigItem.values "buttonLedOff" "buttonLedHigh" ≠ valueOf LedState.values "High" ∧
    offsetFrom ConfigItem.values "buttonLedOff" "buttonLedLow" ≠ valueOf LedState.values "Low" := by
  refine ⟨by decide, by decide, by decide, by decide, by decide, by decide, by decide,
    by decide, by decide, by decide, by decide⟩

/-! ## Constants and record layout -/

/-- C8: the timing constants have the documented values: default auto-cycle
duration 3000 ms, config-mode idle timeout 3000 ms, debounce window 30 ms. -/
theorem timing_constants :
    STATS_DISPLAY_DEFAULT_TIME_MS = 3000 ∧ CONFIG_DISPLAY_TIME_MS = 3000 ∧
    DEBOUNCE_TIME_MS = 30 := by
  refine ⟨by decide, by decide, by decide⟩

/-- C4: the default record is the all-first-values record: `DisplayMode::sensor`,
`SensorItem::system` and `LedState::Off` are the first enumerator of their enum
and have numeric value 0, which is a valid selection of each enum, and
`STATS_DISPLAY_DEFAULT_TIME_MS` is 3000, within the range of the two-byte
member `StatsDisplayTimeMs`. -/
theorem default_values_first :
    valueOf DisplayMode.values "sensor" = some 0 ∧
    valueOf SensorItem.values "system" = some 0 ∧
    valueOf LedState.values "Off" = some 0 ∧
    DisplayMode.values.head? = some ("sensor", 0) ∧
    SensorItem.values.head? = some ("system", 0) ∧
    LedState.values.head? = some ("Off", 0) ∧
    isValidIn DisplayMode.values 0 ∧ isValidIn SensorItem.values 0 ∧
    isValidIn LedState.values 0 ∧
    STATS_DISPLAY_DEFAULT_TIME_MS = 3000 ∧
    EepromData.widthOf "StatsDisplayTimeMs" = some CType.u16.width ∧
    STATS_DISPLAY_DEFAULT_TIME_MS < 2 ^ (8 * CType.u16.width) := by
  refine ⟨by decide, by decide, by decide, by decide, by decide, by decide, by decide,
    by decide, by decide, by decide, by decide, by decide⟩

/-- C1: `EepromData` has exactly seven members, in this order and with these
widths: Version (u8), Size (u8), SelectedDisplayMode (u8), SelectedSensorItem
(u8), LedState (u8), StatsDisplayTimeMs (u16) and the parity member (u8); the
parity member is the last one, and the widths sum to 8 bytes, a value that fits
in the one-byte Size member.  The header writes the identifier of the parity
member as `Pariry`. -/
theorem eepromData_layout :
    EepromData.fields.length = 7 ∧
    EepromData.fields =
      [("Version", .u8), ("Size", .u8), ("SelectedDisplayMode", .u8),
       ("SelectedSensorItem", .u8), ("LedState", .u8), ("StatsDisplayTimeMs", .u16),
       (EepromData.parityName, .u8)] ∧
    EepromData.fields.map (fun f => f.2.width) = [1, 1, 1, 1, 1, 2, 1] ∧
    EepromData.fields.getLast? = some (EepromData.parityName, .u8) ∧
    EepromData.recordSize = 8 ∧
    EepromData.widthOf "Size" = some CType.u8.width ∧
    EepromData.recordSize < 2 ^ (8 * CType.u8.width) := by
  refine ⟨by decide, by decide, by decide, by decide, by decide, by decide, by decide⟩

/-! ## Selection stepping -/

theorem sentinelOf_sensorItem : sentinelOf SensorItem.values = 5 := by decide

theorem sentinelOf_configItem : sentinelOf ConfigItem.values = 9 := by decide

theorem orbit_five (v : Nat) (hv : v < 5) :
    advance 5 v < 5 ∧ (orbit 5 v).length = 5 ∧ (orbit 5 v).head? = some v ∧
    (∀ w ∈ orbit 5 v, w < 5) ∧ (∀ w ∈ List.range 5, (orbit 5 v).count w = 1) ∧
    (advance 5)^[5] v = v := by
  interval_cases v <;> decide

theorem orbit_nine (v : Nat) (hv : v < 9) :
    advance 9 v < 9 ∧ (orbit 9 v).length = 9 ∧ (orbit 9 v).head? = some v ∧
    (∀ w ∈ orbit 9 v, w < 9) ∧ (∀ w ∈ List.range 9, (orbit 9 v).count w = 1) ∧
    (advance 9)^[9] v = v := by
  interval_cases v <;> decide

/-- C2: for `SensorItem` and for `ConfigItem`, with `advance v = (v + 1)` modulo
the numeric value of `endEnum`: from every valid starting value `v`, `advance`
never yields `endEnum` but a valid value again, and the sequence
`v, advance v, …` of the first `endEnum` steps starts at `v`, contains exactly
the valid values, each exactly once, and the next step is `v` again; `endEnum`
is 5 for `SensorItem` and 9 for `ConfigItem`. -/
theorem advance_cycle (vals : List (String × Nat)) (v : Nat)
    (hvals : vals = SensorItem.values ∨ vals = ConfigItem.values)
    (hv : isValidIn vals v) :
    advance (sentinelOf vals) v ≠ sentinelOf vals ∧
    isValidIn vals (advance (sentinelOf vals) v) ∧
    (orbit (sentinelOf vals) v).length = sentinelOf vals ∧
    (orbit (sentinelOf vals) v).head? = some v ∧
    (∀ w, w ∈ orbit (sentinelOf vals) v ↔ isValidIn vals w) ∧
    (∀ w, isValidIn vals w → (orbit (sentinelOf vals) v).count w = 1) ∧
    (advance (sentinelOf vals))^[sentinelOf vals] v = v ∧
    sentinelOf SensorItem.values = 5 ∧ sentinelOf ConfigItem.values = 9 := by
  rcases hvals with h | h <;> subst h
  · rw [sensorItem_valid_iff] at hv
    simp only [sensorItem_valid_iff, sentinelOf_sensorItem, sentinelOf_configItem]
    obtain ⟨h1, h2, h3, h4, h5, h6⟩ := orbit_five v hv
    refine ⟨by omega, h1, h2, h3, fun w => ⟨h4 w, fun hw => ?_⟩,
      fun w hw => h5 w (List.mem_range.mpr hw), h6, trivial, trivial⟩
    have := h5 w (List.mem_range.mpr hw)
    exact List.count_pos_iff.mp (by omega)
  · rw [configItem_valid_iff] at hv
    simp only [configItem_valid_iff, sentinelOf_sensorItem, sentinelOf_configItem]
    obtain ⟨h1, h2, h3, h4, h5, h6⟩ := orbit_nine v hv
    refine ⟨by omega, h1, h2, h3, fun w => ⟨h4 w, fun hw => ?_⟩,
      fun w hw => h5 w (List.mem_range.mpr hw), h6, trivial, trivial⟩
    have := h5 w (List.mem_range.mpr hw)
    exact List.count_pos_iff.mp (by omega)

/-- C2 at a concrete input: stepping `ConfigItem` from buttonLedHigh (7). -/
theorem advance_cycle_witness :
    isValidIn ConfigItem.values 7 ∧
    advance (sentinelOf ConfigItem.values) 7 ≠ sentinelOf ConfigItem.values ∧
    orbit (sentinelOf ConfigItem.values) 7 = [7, 8, 0, 1, 2, 3, 4, 5, 6] ∧
    (advance (sentinelOf ConfigItem.values))^[sentinelOf ConfigItem.values] 7 = 7 :=
  ⟨by decide, (advance_cycle ConfigItem.values 7 (Or.inr rfl) (by decide)).1, by decide,
    (advance_cycle ConfigItem.values 7 (Or.inr rfl) (by decide)).2.2.2.2.2.2.1⟩

/-! ## Persistence round trip -/

theorem ofBytes_toBytes (x : EepromData) (hwf : x.wellFormed) :
    EepromData.ofBytes x.toBytes = some x := by
  obtain ⟨h1, h2, h3, h4, h5, h6, h7⟩ := hwf
  simp only [EepromData.toBytes, EepromData.ofBytes]
  have e1 : x.Version % 256 = x.Version := Nat.mod_eq_of_lt (by omega)
  have e2 : x.Size % 256 = x.Size := Nat.mod_eq_of_lt (by omega)
  have e3 : x.SelectedDisplayMode % 256 = x.SelectedDisplayMode := Nat.mod_eq_of_lt (by omega)
  have e4 : x.SelectedSensorItem % 256 = x.SelectedSensorItem := Nat.mod_eq_of_lt (by omega)
  have e5 : x.LedState % 256 = x.LedState := Nat.mod_eq_of_lt (by omega)
  have e6 : x.StatsDisplayTimeMs % 256 + 256 * (x.StatsDisplayTimeMs / 256 % 256)
      = x.StatsDisplayTimeMs := by omega
  have e7 : x.Pariry % 256 = x.Pariry := Nat.mod_eq_of_lt (by omega)
  rw [e1, e2, e3, e4, e5, e6, e7]

theorem toBytes_length (x : EepromData) : x.toBytes.length = EepromData.recordSize := by
  simp [EepromData.toBytes, eepromData_recordSize_eq]

theorem stamp_wellFormed (parity : List Nat → Nat) (x : EepromData) (hwf : x.wellFormed) :
    (stamp parity x).wellFormed := by
  obtain ⟨h1, h2, h3, h4, h5, h6, h7⟩ := hwf
  refine ⟨?_, ?_, h3, h4, h5, h6, ?_⟩
  · show CURRENT_EEPROM_DATA_VERSION < 2 ^ 8
    decide
  · show EepromData.recordSize < 2 ^ 8
    decide
  · show parity _ % 256 < 2 ^ 8
    omega

theorem precedingBytes_stamp (parity : List Nat → Nat) (x : EepromData) :
    precedingBytes (stamp parity x).toBytes =
      precedingBytes
        ({ x with Version := CURRENT_EEPROM_DATA_VERSION,
                  Size := EepromData.recordSize } : EepromData).toBytes := by
  have h : EepromData.recordSize - CType.u8.width = 7 := by decide
  simp [precedingBytes, h, stamp, EepromData.toBytes]

theorem load_save_eq_stamp (parity : List Nat → Nat) (x : EepromData)
    (hwf : x.wellFormed)
    (hm : isValidIn DisplayMode.values x.SelectedDisplayMode)
    (hs : x.SelectedSensorItem < SensorItem.endEnum)
    (hl : isValidIn LedState.values x.LedState) :
    load parity (save parity x) = stamp parity x := by
  have htake : (save parity x).take EepromData.recordSize = (stamp parity x).toBytes := by
    unfold save
    rw [← toBytes_length (stamp parity x), List.take_length]
  have hsv : isValidIn SensorItem.values x.SelectedSensorItem :=
    (sensorItem_valid_iff_lt_endEnum _).mpr hs
  have hacc : accepts parity (stamp parity x).toBytes (stamp parity x) = true := by
    unfold accepts
    rw [precedingBytes_stamp]
    simp only [Bool.and_eq_true, decide_eq_true_eq]
    exact ⟨⟨⟨⟨⟨rfl, rfl⟩, rfl⟩, hm⟩, hsv⟩, hl⟩
  unfold load
  simp only [htake, ofBytes_toBytes _ (stamp_wellFormed parity x hwf), hacc, if_true]

theorem stamp_eq_self (parity : List Nat → Nat) (x : EepromData)
    (hver : x.Version = CURRENT_EEPROM_DATA_VERSION)
    (hsize : x.Size = EepromData.recordSize)
    (hpar : x.Pariry = parity (precedingBytes x.toBytes) % 256) :
    stamp parity x = x := by
  obtain ⟨v, s, m, i, l, t, p⟩ := x
  change v = CURRENT_EEPROM_DATA_VERSION at hver
  change s = EepromData.recordSize at hsize
  subst hver hsize
  exact congrArg
    (fun q => (⟨CURRENT_EEPROM_DATA_VERSION, EepromData.recordSize, m, i, l, t, q⟩ : EepromData))
    hpar.symm

theorem accepts_iff_valid (parity : List Nat → Nat) (x : EepromData) :
    accepts parity x.toBytes x = true ↔
      (x.Version = CURRENT_EEPROM_DATA_VERSION ∧ x.Size = EepromData.recordSize ∧
       x.Pariry = parity (precedingBytes x.toBytes) % 256 ∧
       isValidIn DisplayMode.values x.SelectedDisplayMode ∧
       x.SelectedSensorItem < SensorItem.endEnum ∧
       isValidIn LedState.values x.LedState) := by
  unfold accepts
  simp only [Bool.and_eq_true, decide_eq_true_eq, sensorItem_valid_iff_lt_endEnum]
  constructor
  · rintro ⟨⟨⟨⟨⟨h1, h2⟩, h3⟩, h4⟩, h5⟩, h6⟩
    exact ⟨h1, h2, h3.symm, h4, h5, h6⟩
  · rintro ⟨h1, h2, h3, h4, h5, h6⟩
    exact ⟨⟨⟨⟨⟨h1, h2⟩, h3.symm⟩, h4⟩, h5⟩, h6⟩

end SensorsDisplay
